import Mathlib

/-!
Verification development for the podcast transcription pipeline
(`server.js`, `transcription-service.js`, `api/transcribe.js`).

JavaScript values are modelled shallowly:
* JS strings are Lean `String`s (equivalently lists of code points; all
  characters appearing in the program are in the basic plane, where JS
  `length` agrees with the code-point count);
* JS numbers holding timestamps/durations are rationals `ℚ` (`Math.floor`
  is `Rat.floor`, the `%` operator is truncated remainder);
* fallible operations are `Except`;
* the ambient random stream of `Math.random()` is passed explicitly as an
  oracle `ℕ → ℚ`, consumed left to right.

Rational arithmetic is made semireducible so that concrete runs of the
embedded functions can be evaluated inside proofs.
-/

set_option allowUnsafeReducibility true

attribute [local semireducible] Rat.add Rat.mul Rat.sub Rat.div Rat.inv Rat.neg

/-! ## JS string helpers -/

/-- JS `String.prototype.padStart(n, c)`. -/
def padStart (s : String) (n : Nat) (c : Char) : String :=
  if s.length < n then String.mk (List.replicate (n - s.length) c) ++ s else s

/-- JS `String.prototype.trim()` on a list of code points. -/
def jsTrim (l : List Char) : List Char :=
  (((l.dropWhile Char.isWhitespace).reverse).dropWhile Char.isWhitespace).reverse

/-- JS `String.prototype.trim()` on strings. -/
def jsTrimS (s : String) : String :=
  String.mk (jsTrim s.data)

/-- JS `String.prototype.toLowerCase()` per code point. -/
def jsToLower (s : String) : String := String.mk (s.data.map Char.toLower)

/-- Boolean prefix test on code-point lists (JS `startsWith`). -/
def listStartsWith : List Char → List Char → Bool
  | [], _ => true
  | _ :: _, [] => false
  | a :: as, b :: bs => a = b && listStartsWith as bs

/-- Boolean substring test on code-point lists (JS `includes`). -/
def listContainsSub (pat l : List Char) : Bool :=
  l.tails.any (fun t => listStartsWith pat t)

/-! ## JS number helpers -/

/-- JS `Math.floor` on the rational model of JS numbers. -/
def jsFloor (q : ℚ) : ℤ := Rat.floor q

/-- Truncation toward zero, the rounding used by the JS `%` operator. -/
def ratTrunc (q : ℚ) : ℤ := if q < 0 then -Rat.floor (-q) else Rat.floor q

/-- The JS remainder operator `a % b` (truncated division remainder). -/
def jsMod (a b : ℚ) : ℚ := a - b * (ratTrunc (a / b) : ℚ)

/-! ## Data model

`verbose_json` provider responses and merged transcripts share one shape
(JS objects are duck-typed); absent fields are `Option`/defaults. -/

/-- A word-level timestamp entry of a `verbose_json` response. -/
structure Word where
  word : String
  start : ℚ
  endTime : ℚ
deriving DecidableEq

/-- One transcript segment (source field `end` is `endTime` here, since
`end` is a Lean keyword). -/
structure Segment where
  id : Option String := none
  start : ℚ
  endTime : ℚ
  text : String
  words : List Word := []
  speaker : Option String := none
deriving DecidableEq

/-- A transcription object: provider response or merged result. -/
structure Transcription where
  text : String
  duration : ℚ
  language : Option String := none
  segments : List Segment
  totalSegments : Nat := 0
  processed : Bool := false
deriving DecidableEq

/-! ## Time formatting (`transcription-service.js` `TranscriptionFormatter`,
`server.js` `formatTime`) -/

/-- `formatSRTTime(seconds)`: `HH:MM:SS,mmm`, all components floored. -/
def formatSRTTime (seconds : ℚ) : String :=
  let hours := jsFloor (seconds / 3600)
  let minutes := jsFloor (jsMod seconds 3600 / 60)
  let secs := jsFloor (jsMod seconds 60)
  let ms := jsFloor (jsMod seconds 1 * 1000)
  (padStart (toString hours) 2 '0' ++ ":" ++ padStart (toString minutes) 2 '0' ++
      ":" ++ padStart (toString secs) 2 '0') ++
    ("," ++ padStart (toString ms) 3 '0')

/-- `formatVTTTime(seconds)`: `HH:MM:SS.mmm`, all components floored. -/
def formatVTTTime (seconds : ℚ) : String :=
  let hours := jsFloor (seconds / 3600)
  let minutes := jsFloor (jsMod seconds 3600 / 60)
  let secs := jsFloor (jsMod seconds 60)
  let ms := jsFloor (jsMod seconds 1 * 1000)
  (padStart (toString hours) 2 '0' ++ ":" ++ padStart (toString minutes) 2 '0' ++
      ":" ++ padStart (toString secs) 2 '0') ++
    ("." ++ padStart (toString ms) 3 '0')

/-- `formatTime(seconds)`: `MM:SS` (minutes not wrapped at 60). -/
def formatTime (seconds : ℚ) : String :=
  let minutes := jsFloor (seconds / 60)
  let remainingSeconds := jsFloor (jsMod seconds 60)
  padStart (toString minutes) 2 '0' ++ ":" ++ padStart (toString remainingSeconds) 2 '0'

/-! ## Renderers (`TranscriptionFormatter`) -/

/-- `generatePlainSRT(text, duration)`: single-cue fallback; a falsy
(zero) duration becomes 60. -/
def generatePlainSRT (text : String) (duration : ℚ) : String :=
  "1\n" ++ formatSRTTime 0 ++ " --> " ++
    formatSRTTime (if duration = 0 then 60 else duration) ++ "\n" ++ text ++ "\n\n"

/-- `generatePlainVTT(text, duration)`: single-cue fallback body. -/
def generatePlainVTT (text : String) (duration : ℚ) : String :=
  formatVTTTime 0 ++ " --> " ++
    formatVTTTime (if duration = 0 then 60 else duration) ++ "\n" ++ text ++ "\n\n"

/-- The per-segment accumulation of `generateSRT`'s `forEach`. -/
def srtBlocks : List Segment → Nat → String
  | [], _ => ""
  | s :: rest, index =>
      toString (index + 1) ++ "\n" ++
        (formatSRTTime s.start ++ " --> " ++ formatSRTTime s.endTime ++ "\n") ++
        (jsTrimS s.text ++ "\n\n") ++ srtBlocks rest (index + 1)

/-- `generateSRT(transcription)`. -/
def generateSRT (t : Transcription) : String :=
  if t.segments = [] then generatePlainSRT t.text t.duration
  else srtBlocks t.segments 0

/-- The per-segment accumulation of `generateVTT`'s `forEach`. -/
def vttBlocks : List Segment → String
  | [] => ""
  | s :: rest =>
      (formatVTTTime s.start ++ " --> " ++ formatVTTTime s.endTime ++ "\n") ++
        (jsTrimS s.text ++ "\n\n") ++ vttBlocks rest

/-- `generateVTT(transcription)`: `WEBVTT` header then cues. -/
def generateVTT (t : Transcription) : String :=
  "WEBVTT\n\n" ++
    (if t.segments = [] then generatePlainVTT t.text t.duration
     else vttBlocks t.segments)

/-- `generatePlainText(transcription)`: `[MM:SS - MM:SS] text` blocks
joined by blank lines, falling back to the raw text. -/
def generatePlainText (t : Transcription) : String :=
  if t.segments = [] then t.text
  else
    String.intercalate "\n\n"
      (t.segments.map (fun s =>
        "[" ++ formatTime s.start ++ " - " ++ formatTime s.endTime ++ "] " ++ jsTrimS s.text))

/-- Concrete two-segment transcript used to exercise the TXT renderer. -/
def c6Example : Transcription :=
  { text := "hello world"
    duration := 5
    language := some "zh"
    segments :=
      [ { start := 0, endTime := 2, text := "hello" },
        { start := 2, endTime := 5, text := "world" } ]
    totalSegments := 2 }

/-! ## Merger (`server.js` `mergeTranscriptions`) -/

/-- The timestamp shift `{...segment, start: start + totalDuration,
end: end + totalDuration}` applied by the merger. -/
def shiftSegment (totalDuration : ℚ) (s : Segment) : Segment :=
  { s with start := s.start + totalDuration, endTime := s.endTime + totalDuration }

/-- The `forEach` accumulation of `mergeTranscriptions`: carries the
merged text, the running `totalDuration`, and the collected segments.
`n` is `transcriptions.length` (divider check), `index` the loop index. -/
def mergeGo (n : Nat) :
    List Transcription → Nat → ℚ → String → List Segment → String × ℚ × List Segment
  | [], _, totalDuration, mergedText, allSegments => (mergedText, totalDuration, allSegments)
  | t :: rest, index, totalDuration, mergedText, allSegments =>
      let allSegments' :=
        if t.segments ≠ [] then allSegments ++ t.segments.map (shiftSegment totalDuration)
        else allSegments
      let withDivider :=
        if n > 1 then mergedText ++ "\n=== 片段 " ++ toString (index + 1) ++ " ===\n"
        else mergedText
      let withBody :=
        if t.segments ≠ [] then
          withDivider ++
            String.intercalate "\n\n"
              (t.segments.map (fun s =>
                "[" ++ formatTime (s.start + totalDuration) ++ " - " ++
                  formatTime (s.endTime + totalDuration) ++ "] " ++ jsTrimS s.text))
        else withDivider ++ t.text
      mergeGo n rest (index + 1) (totalDuration + t.duration) (withBody ++ "\n\n") allSegments'

/-- `mergeTranscriptions(transcriptions)`: offsets each result by the sum
of the provider-reported durations seen so far, concatenates segments and
text (with `=== 片段 i ===` dividers when merging more than one), and
reports the accumulated duration. -/
def mergeTranscriptions (transcriptions : List Transcription) : Transcription :=
  let r := mergeGo transcriptions.length transcriptions 0 0 "" []
  { text := jsTrimS r.1
    duration := r.2.1
    segments := r.2.2
    language := none
    totalSegments := transcriptions.length }

/-- Spec-side description (for the amended C1): the sum of the
provider-reported durations of a list of per-segment results. -/
def durationSum : List Transcription → ℚ
  | [] => 0
  | t :: rest => t.duration + durationSum rest

/-- Spec-side description (for the amended C1): segment lists joined in
index order, slice `i` shifted by the accumulated durations of slices
`0..i-1` on top of `offset`. -/
def mergeSpecSegments (offset : ℚ) : List Transcription → List Segment
  | [] => []
  | t :: rest =>
      t.segments.map (shiftSegment offset) ++ mergeSpecSegments (offset + t.duration) rest

/-- Two provider results whose reported durations (100 s and 50 s) are
far from the fixed 300 s slice length. -/
def c1SliceA : Transcription :=
  { text := "", duration := 100, language := some "zh",
    segments := [ { start := 0, endTime := 10, text := "A" } ] }

/-- Second slice of the C1 counterexample. -/
def c1SliceB : Transcription :=
  { text := "", duration := 50, language := some "zh",
    segments := [ { start := 0, endTime := 12, text := "B" } ] }

/-! ## Transcription pipeline paths (`server.js` `/api/transcribe`)

The loop bodies call the provider twice at most per input: the
`gpt-4o-transcribe` attempt and, on any error, the `whisper-1` fallback.
The outcomes of those calls are passed in as data. -/

/-- A provider/transport error as seen in the `catch` handlers
(`error.code`, `error.message`). -/
structure ApiError where
  code : String
  message : String
deriving DecidableEq

/-- The outcomes of the (at most two) provider calls made for one input
file: the `gpt-4o-transcribe` attempt and the `whisper-1` fallback. -/
structure SegmentAttempts where
  gpt4oTranscribe : Except ApiError Transcription
  whisper1 : Except ApiError Transcription

/-- The `try`/`catch (modelError)` block: use the `gpt-4o-transcribe`
result; on any error run `whisper-1` and use its result, errors and
all. -/
def transcribeSegmentOnce (o : SegmentAttempts) : Except ApiError Transcription :=
  match o.gpt4oTranscribe with
  | .ok t => .ok t
  | .error _ => o.whisper1

/-- The sequential segmented `for` loop: collect every segment's result;
an uncaught error (both calls failed) propagates and stops the loop. -/
def collectSegmentTranscriptions : List SegmentAttempts → Except ApiError (List Transcription)
  | [] => .ok []
  | o :: rest =>
      match transcribeSegmentOnce o with
      | .ok t =>
          match collectSegmentTranscriptions rest with
          | .ok ts => .ok (t :: ts)
          | .error e => .error e
      | .error e => .error e

/-- The segmented path: transcribe every segment, then merge; any
segment failure reaches the outer `catch` instead. -/
def transcribeSegmentedPath (os : List SegmentAttempts) : Except ApiError Transcription :=
  match collectSegmentTranscriptions os with
  | .ok ts => .ok (mergeTranscriptions ts)
  | .error e => .error e

/-- Whether an `Except` outcome is a success. -/
def isOkE {ε α : Type} : Except ε α → Bool
  | .ok _ => true
  | .error _ => false

/-- The single-file path: `gpt-4o-transcribe`, falling back to
`whisper-1` on any error. -/
def singleFileTranscribe (gpt4o whisper1 : Except ApiError Transcription) :
    Except ApiError Transcription :=
  match gpt4o with
  | .ok t => .ok t
  | .error _ => whisper1

/-- How many provider transcription calls the single-file path makes,
as a function of the first call's outcome. -/
def singleFileAttempts (gpt4o : Except ApiError Transcription) : Nat :=
  match gpt4o with
  | .ok _ => 1
  | .error _ => 2

/-- The outer `catch` of `/api/transcribe`: HTTP status and body keyed on
`error.code`. -/
def classifyTranscriptionError (e : ApiError) : Nat × String :=
  if e.code = "insufficient_quota" then (402, "OpenAI API 額度不足，請檢查帳戶餘額")
  else if e.code = "invalid_request_error" then (400, "音檔格式不支援或檔案損壞")
  else (500, "轉錄失敗: " ++ e.message)

/-- The provider's quota-exhausted error. -/
def quotaError : ApiError :=
  { code := "insufficient_quota", message := "You exceeded your current quota" }

/-- A connection-reset error used by the C2 counterexample. -/
def connResetError : ApiError :=
  { code := "ECONNRESET", message := "socket hang up" }

/-- Segment outcome where both provider calls fail. -/
def c2FailedSegment : SegmentAttempts :=
  { gpt4oTranscribe := .error connResetError, whisper1 := .error connResetError }

/-- Segment outcome where the first provider call succeeds. -/
def c2OkSegment (t : Transcription) : SegmentAttempts :=
  { gpt4oTranscribe := .ok t, whisper1 := .ok t }

/-! ## Job log buffer (`server.js` `addTranscriptionLog`) -/

/-- One entry of the per-job log buffer. -/
structure JobLogEntry where
  timestamp : String
  level : String
  message : String
  stage : String
  memory : String
deriving DecidableEq

/-- `addTranscriptionLog`: push the entry, then `shift()` the oldest
entry out whenever the buffer holds more than 500. -/
def addTranscriptionLog (logs : List JobLogEntry) (entry : JobLogEntry) : List JobLogEntry :=
  let logs' := logs ++ [entry]
  if logs'.length > 500 then logs'.drop 1 else logs'

/-- A concrete log entry. -/
def c8Entry : JobLogEntry :=
  { timestamp := "2024-01-01T00:00:00.000Z", level := "info", message := "m",
    stage := "s", memory := "RSS=1MB" }

/-- A transcript with the same text/duration/segments as `c6Example` but
different ambient metadata, for the C7 witness. -/
def c7Variant : Transcription :=
  { text := "hello world"
    duration := 5
    language := none
    segments :=
      [ { start := 0, endTime := 2, text := "hello" },
        { start := 2, endTime := 5, text := "world" } ]
    totalSegments := 9
    processed := true }

/-! ## Speaker labelling (`transcription-service.js`
`SpeakerDiarization.simulateSpeakerDetection`) -/

/-- The `forEach` body of `simulateSpeakerDetection` for the segments
after the first: `rand` is the `Math.random()` stream, consumed at
`randIdx` whenever the gap/text-length condition holds. -/
def speakerGo (rand : Nat → ℚ) :
    List Segment → Segment → String → Nat → Nat → List Segment
  | [], _, _, _, _ => []
  | seg :: rest, prev, currentSpeaker, speakerCount, randIdx =>
      let gap := seg.start - prev.endTime
      let textLengthDiff := ((seg.text.length : ℤ) - (prev.text.length : ℤ)).natAbs
      if gap > 3 ∨ textLengthDiff > 50 then
        if rand randIdx > 7/10 then
          let speakerCount' := min (speakerCount + 1) 4
          let currentSpeaker' := "Speaker " ++ toString speakerCount'
          { seg with speaker := some currentSpeaker' } ::
            speakerGo rand rest seg currentSpeaker' speakerCount' (randIdx + 1)
        else
          { seg with speaker := some currentSpeaker } ::
            speakerGo rand rest seg currentSpeaker speakerCount (randIdx + 1)
      else
        { seg with speaker := some currentSpeaker } ::
          speakerGo rand rest seg currentSpeaker speakerCount randIdx

/-- `simulateSpeakerDetection(segments)`: the first segment always gets
`Speaker 1`; later segments may switch speaker when the gap exceeds 3 s
or the text length jumps by more than 50, accepted when the random draw
exceeds 0.7, with the counter capped at 4. -/
def simulateSpeakerDetection (rand : Nat → ℚ) : List Segment → List Segment
  | [] => []
  | seg :: rest =>
      { seg with speaker := some "Speaker 1" } :: speakerGo rand rest seg "Speaker 1" 1 0

/-- Two segments separated by a 4-second gap (switch condition holds). -/
def c9Segments : List Segment :=
  [ { start := 0, endTime := 1, text := "a" },
    { start := 5, endTime := 6, text := "b" } ]

/-- A random stream that always draws 0.9 (acceptance). -/
def c9RandHigh : Nat → ℚ := fun _ => 9/10

/-- A random stream that always draws 0 (rejection). -/
def c9RandLow : Nat → ℚ := fun _ => 0

/-! ## Prompt assembly (`TranscriptionOptimizer.generateOptimizedPrompt`
and the `/api/transcribe` keyword merging) -/

/-- `generateOptimizedPrompt(language, contentType)`: the template table
with fallback to the zh podcast template. -/
def generateOptimizedPrompt (language contentType : String) : String :=
  if language = "zh" then
    if contentType = "podcast" then
      "請使用繁體中文進行轉錄。這是一個播客節目，請保持自然的對話語調，適當添加標點符號，並保持語境的連貫性。"
    else if contentType = "interview" then
      "請使用繁體中文進行轉錄。這是一個訪談節目，請區分主持人和來賓的發言，保持正式的語調。"
    else if contentType = "lecture" then
      "請使用繁體中文進行轉錄。這是一個講座或教學內容，請使用學術性的語言，正確轉錄專業術語。"
    else
      "請使用繁體中文進行轉錄。這是一個播客節目，請保持自然的對話語調，適當添加標點符號，並保持語境的連貫性。"
  else if language = "en" then
    if contentType = "podcast" then
      "Please transcribe this podcast in natural conversational English with proper punctuation and context."
    else if contentType = "interview" then
      "Please transcribe this interview maintaining formal tone and distinguishing between speakers."
    else if contentType = "lecture" then
      "Please transcribe this lecture using academic language and technical terminology."
    else
      "請使用繁體中文進行轉錄。這是一個播客節目，請保持自然的對話語調，適當添加標點符號，並保持語境的連貫性。"
  else
    "請使用繁體中文進行轉錄。這是一個播客節目，請保持自然的對話語調，適當添加標點符號，並保持語境的連貫性。"

/-- The keywords-length guard at request parsing: truncate to 400. -/
def truncateKeywords (keywords : List Char) : List Char :=
  if keywords.length > 400 then keywords.take 400 else keywords

/-- The prompt merging of the transcribe handler, over code-point lists:
prepend trimmed keywords with a blank line; if the combined prompt
exceeds 400, keep the keywords whole and truncate the template to the
remaining room (or keep only the keywords when no room is left). -/
def assemblePromptFromTruncated (keywords : List Char) (contentType : String) : List Char :=
  if jsTrim keywords = [] then (generateOptimizedPrompt "zh" contentType).data
  else if (jsTrim keywords ++
      ('\n' :: '\n' :: (generateOptimizedPrompt "zh" contentType).data)).length > 400 then
    if 400 - (jsTrim keywords).length - 2 > 0 then
      jsTrim keywords ++
        ('\n' :: '\n' ::
          (generateOptimizedPrompt "zh" contentType).data.take
            (400 - (jsTrim keywords).length - 2))
    else (jsTrim keywords).take 400
  else jsTrim keywords ++ ('\n' :: '\n' :: (generateOptimizedPrompt "zh" contentType).data)

/-- Full prompt pipeline: the request-level keyword truncation followed
by the handler's prompt merging. -/
def assembledPrompt (rawKeywords : List Char) (contentType : String) : List Char :=
  assemblePromptFromTruncated (truncateKeywords rawKeywords) contentType

/-- Concrete keywords for the C4 witness. -/
def c4Keywords : List Char := "Bitcoin ETF".data

/-! ## Audio file validation (`validateAndNormalizeAudioFile`,
`validateAudioFileContent`) -/

/-- The accepted extension set. -/
def supportedExtensions : List String :=
  [".flac", ".m4a", ".mp3", ".mp4", ".mpeg", ".mpga", ".oga", ".ogg", ".wav", ".webm"]

/-- `validateAndNormalizeAudioFile`, as a function of the file's
extension (`path.extname` output): reject unsupported extensions, return
the lowercased (normalized) extension otherwise. -/
def validateAndNormalizeAudioFile (ext : String) : Except String String :=
  if jsToLower ext ∈ supportedExtensions then Except.ok (jsToLower ext)
  else Except.error ("不支援的音檔格式: " ++ jsToLower ext)

/-- Upper-case hex digit. -/
def hexDigitChar (n : Nat) : Char := "0123456789ABCDEF".data.getD n '0'

/-- One byte as two upper-case hex digits
(`buffer.toString('hex').toUpperCase()` per byte). -/
def byteHex (b : Nat) : List Char := [hexDigitChar (b / 16 % 16), hexDigitChar (b % 16)]

/-- Hex dump of a byte list. -/
def bytesHex (bytes : List Nat) : List Char := (bytes.map byteHex).flatten

/-- The signature checks of `validateAudioFileContent` over the hex dump
of the 12-byte header buffer: ID3 / MP3 frame sync / RIFF…WAVE /
`ftyp` anywhere / OggS / fLaC. -/
def audioSignatureKnown (bytes : List Nat) : Bool :=
  let hex := bytesHex (bytes.take 12)
  listStartsWith "494433".data hex || listStartsWith "FFFB".data hex ||
    listStartsWith "FFF3".data hex || listStartsWith "FFF2".data hex ||
    (listStartsWith "52494646".data hex && listContainsSub "57415645".data hex) ||
    listContainsSub "66747970".data hex ||
    listStartsWith "4F676753".data hex ||
    listStartsWith "664C6143".data hex

/-- `validateAudioFileContent`, as a function of the file size and header
bytes. Every signature branch (known or unknown) accepts; the Boolean
payload records whether the unknown-signature warning branch was
taken. -/
def validateAudioFileContent (size : Nat) (bytes : List Nat) : Except String Bool :=
  if size = 0 then Except.error "音檔檔案為空"
  else if size < 1000 then Except.error "音檔檔案太小，可能已損壞"
  else Except.ok (!audioSignatureKnown bytes)

/-- The two validation calls run in sequence by the transcribe handler. -/
def validateAudio (ext : String) (size : Nat) (bytes : List Nat) : Except String Bool :=
  match validateAndNormalizeAudioFile ext with
  | .ok _ => validateAudioFileContent size bytes
  | .error e => .error e

/-! ## Segment optimization and post-processing
(`TranscriptionOptimizer`, `TranscriptionProcessor`) -/

/-- Fuel-indexed literal-pattern global replace (JS
`replace(/pat/g, rep)` for a fixed literal pattern; fuel = list length,
each step consumes at least one character). -/
def replaceAllFuel (pat rep : List Char) : Nat → List Char → List Char
  | 0, l => l
  | _, [] => []
  | fuel + 1, c :: rest =>
      if pat ≠ [] ∧ listStartsWith pat (c :: rest) = true then
        rep ++ replaceAllFuel pat rep fuel ((c :: rest).drop pat.length)
      else c :: replaceAllFuel pat rep fuel rest

/-- Literal-pattern global replace. -/
def replaceAllL (pat rep l : List Char) : List Char := replaceAllFuel pat rep l.length l

/-- Fuel-indexed whitespace-run collapsing (JS `replace(/\s+/g, ' ')`). -/
def collapseWsFuel : Nat → List Char → List Char
  | 0, l => l
  | _, [] => []
  | fuel + 1, c :: rest =>
      if c.isWhitespace then ' ' :: collapseWsFuel fuel (rest.dropWhile Char.isWhitespace)
      else c :: collapseWsFuel fuel rest

/-- Whitespace-run collapsing. -/
def collapseWsL (l : List Char) : List Char := collapseWsFuel l.length l

/-- `TranscriptionOptimizer.postProcessText`: fix doubled fillers and
punctuation, collapse whitespace, trim. -/
def postProcessText (text : String) : String :=
  jsTrimS (String.mk (collapseWsL
    (replaceAllL "。。".data "。".data
      (replaceAllL "，，".data "，".data
        (replaceAllL "然後然後".data "然後".data
          (replaceAllL "就是就是".data "就是".data
            (replaceAllL "那個那個".data "那個".data text.data)))))))

/-- `TranscriptionOptimizer.isSentenceEnd`: regex `[。！？\.!?]$` on the
trimmed text. -/
def isSentenceEnd (text : String) : Bool :=
  match (jsTrim text.data).getLast? with
  | some c => ['。', '！', '？', '.', '!', '?'].contains c
  | none => false

/-- One `forEach` step of `intelligentSegmentation`: state is
`(optimizedSegments, currentSegment)`. -/
def segOptStep (st : List Segment × Option Segment) (segment : Segment) :
    List Segment × Option Segment :=
  if (jsTrimS segment.text).length < 2 then st
  else
    match st.2 with
    | some currentSegment =>
        if segment.start - currentSegment.endTime < 1 ∧
            currentSegment.text.length < 100 ∧
            isSentenceEnd currentSegment.text = false then
          (st.1,
            some { currentSegment with
              text := currentSegment.text ++ " " ++ jsTrimS segment.text
              endTime := segment.endTime
              words := currentSegment.words ++ segment.words })
        else (st.1 ++ [currentSegment], some { segment with text := jsTrimS segment.text })
    | none => (st.1, some { segment with text := jsTrimS segment.text })

/-- `TranscriptionOptimizer.intelligentSegmentation`: drop segments whose
trimmed text is under 2 characters; merge a segment into the current one
when it starts less than 1 s after it, the current text is under 100
characters and does not end a sentence; flush the final current
segment. -/
def intelligentSegmentation (segments : List Segment) : List Segment :=
  match (segments.foldl segOptStep ([], none)).2 with
  | some currentSegment => (segments.foldl segOptStep ([], none)).1 ++ [currentSegment]
  | none => (segments.foldl segOptStep ([], none)).1

/-- Count of an optional pending segment. -/
def optCount : Option Segment → Nat
  | some _ => 1
  | none => 0

/-! ## JSON rendering and the format switch (`generateJSON`,
`TranscriptionProcessor.processTranscriptionResult`) -/

/-- The ambient state consulted only by the JSON renderer:
`new Date().toISOString()` and the `uuidv4()` stream. -/
structure RenderEnv where
  nowISO : String
  uuid : Nat → String

/-- JSON string escaping (common escapes; other control characters do
not occur in this development). -/
def jsonEscapeChar (c : Char) : List Char :=
  if c = '"' then ['\\', '"']
  else if c = '\\' then ['\\', '\\']
  else if c = '\n' then ['\\', 'n']
  else if c = '\r' then ['\\', 'r']
  else if c = '\t' then ['\\', 't']
  else [c]

/-- A JSON string literal. -/
def jsonStr (s : String) : String :=
  "\"" ++ String.mk ((s.data.map jsonEscapeChar).flatten) ++ "\""

/-- Strip trailing `'0'` digits of a fraction. -/
def stripTrailingZeros (l : List Char) : List Char :=
  (l.reverse.dropWhile (fun c => c = '0')).reverse

/-- Smallest `k ≤ 39` with `den ∣ 10^k`. -/
def pow10Exp (den : Nat) : Option Nat :=
  (List.range 40).find? (fun k => 10 ^ k % den = 0)

/-- JSON rendering of a JS number modelled as a rational: exact decimal
expansion for terminating fractions (every binary-float value is one);
JS shortest-round-trip float printing is approximated by this exact
form. -/
def ratJson (q : ℚ) : String :=
  if q.den = 1 then toString q.num
  else
    match pow10Exp q.den with
    | some k =>
        let m := q.num.natAbs * 10 ^ k / q.den
        (if q.num < 0 then "-" else "") ++ toString (m / 10 ^ k) ++ "." ++
          String.mk (stripTrailingZeros (padStart (toString (m % 10 ^ k)) k '0').data)
    | none => toString q.num ++ "/" ++ toString q.den

/-- `n` spaces (`JSON.stringify` indentation). -/
def jsonIndent (n : Nat) : String := String.mk (List.replicate n ' ')

/-- `JSON.stringify` array layout at the given closing indent. -/
def jsonArray (indent : Nat) (items : List String) : String :=
  if items = [] then "[]"
  else "[\n" ++ String.intercalate ",\n" items ++ "\n" ++ jsonIndent indent ++ "]"

/-- One word object of the JSON rendering. -/
def wordJson (w : Word) : String :=
  jsonIndent 8 ++ "\x7b\n" ++
    jsonIndent 10 ++ "\"word\": " ++ jsonStr w.word ++ ",\n" ++
    jsonIndent 10 ++ "\"start\": " ++ ratJson w.start ++ ",\n" ++
    jsonIndent 10 ++ "\"end\": " ++ ratJson w.endTime ++ "\n" ++
    jsonIndent 8 ++ "\x7d"

/-- One segment object of the JSON rendering; a missing `id` draws a
fresh UUID from the environment (indexed by segment position). -/
def segmentJson (env : RenderEnv) (i : Nat) (s : Segment) : String :=
  jsonIndent 4 ++ "\x7b\n" ++
    jsonIndent 6 ++ "\"id\": " ++ jsonStr (s.id.getD (env.uuid i)) ++ ",\n" ++
    jsonIndent 6 ++ "\"text\": " ++ jsonStr (jsTrimS s.text) ++ ",\n" ++
    jsonIndent 6 ++ "\"start\": " ++ ratJson s.start ++ ",\n" ++
    jsonIndent 6 ++ "\"end\": " ++ ratJson s.endTime ++ ",\n" ++
    jsonIndent 6 ++ "\"words\": " ++ jsonArray 6 (s.words.map wordJson) ++ "\n" ++
    jsonIndent 4 ++ "\x7d"

/-- `TranscriptionFormatter.generateJSON` (`JSON.stringify(…, null, 2)`;
falsy `processed`/`totalSegments` default to `false`/1). -/
def generateJSON (env : RenderEnv) (t : Transcription) : String :=
  "\x7b\n" ++
    "  \"text\": " ++ jsonStr t.text ++ ",\n" ++
    "  \"language\": " ++ (match t.language with | some l => jsonStr l | none => "null") ++
    ",\n" ++
    "  \"duration\": " ++ ratJson t.duration ++ ",\n" ++
    "  \"segments\": " ++
    jsonArray 2 (t.segments.enum.map (fun p => segmentJson env p.1 p.2)) ++ ",\n" ++
    "  \"metadata\": \x7b\n" ++
    "    \"model\": \"whisper-1\",\n" ++
    "    \"timestamp\": " ++ jsonStr env.nowISO ++ ",\n" ++
    "    \"processed\": " ++ (if t.processed then "true" else "false") ++ ",\n" ++
    "    \"totalSegments\": " ++
    toString (if t.totalSegments = 0 then 1 else t.totalSegments) ++ "\n" ++
    "  \x7d\n" ++
    "\x7d"

/-- Render options of `processTranscriptionResult` (source defaults). -/
structure ProcessOptions where
  enableSpeakerDiarization : Bool := false
  outputFormats : List String := ["txt"]
  optimizeSegments : Bool := true
  contentType : String := "podcast"

/-- The format switch (`case 'srt' | 'vtt' | 'json'`, default `txt`). -/
structure RenderedFormats where
  txt : Option String := none
  srt : Option String := none
  vtt : Option String := none
  json : Option String := none
deriving DecidableEq

/-- `TranscriptionProcessor.processTranscriptionResult`: rewrite the
segment list (`intelligentSegmentation`) and post-process the text, then
generate every requested format from the rewritten transcript. Returns
the rewritten transcript (the source mutates its argument) and the
formats. -/
def processTranscriptionResult (env : RenderEnv) (transcription : Transcription)
    (options : ProcessOptions) : Transcription × RenderedFormats :=
  let t1 :=
    if options.optimizeSegments then
      { transcription with segments := intelligentSegmentation transcription.segments }
    else transcription
  let t2 := if t1.text ≠ "" then { t1 with text := postProcessText t1.text } else t1
  let formats := options.outputFormats.foldl
    (fun (fs : RenderedFormats) (format : String) =>
      if format = "srt" then { fs with srt := some (generateSRT t2) }
      else if format = "vtt" then { fs with vtt := some (generateVTT t2) }
      else if format = "json" then { fs with json := some (generateJSON env t2) }
      else { fs with txt := some (generatePlainText t2) })
    {}
  (t2, formats)

/-- Words of the first C10 segment. -/
def c10Words1 : List Word := [ { word := "Hello", start := 0, endTime := 2 } ]

/-- Words of the second C10 segment. -/
def c10Words2 : List Word := [ { word := "world", start := 5/2, endTime := 4 } ]

/-- Three raw segments: two mergeable ones (0.5 s apart) and a
whitespace-only segment that is dropped. -/
def c10Segments : List Segment :=
  [ { start := 0, endTime := 2, text := "Hello", words := c10Words1 },
    { start := 5/2, endTime := 4, text := "world", words := c10Words2 },
    { start := 21/5, endTime := 5, text := " " } ]

/-- The merged segment the optimizer produces from `c10Segments`. -/
def c10Merged : Segment :=
  { start := 0, endTime := 4, text := "Hello world", words := c10Words1 ++ c10Words2 }

/-- The transcript around `c10Segments`. -/
def c10Transcription : Transcription :=
  { text := "Hello  world ", duration := 5, segments := c10Segments }

/-- Default render options (txt only, optimization on). -/
def c10Options : ProcessOptions := {}

/-- A fixed ambient state for rendering. -/
def c10Env : RenderEnv :=
  { nowISO := "2024-01-01T00:00:00.000Z"
    uuid := fun _ => "00000000-0000-4000-8000-000000000000" }

/-- Twelve header bytes matching no known container signature. -/
def c5HeaderBytes : List Nat := List.replicate 12 1

/-! ## Theorems -/

lemma mergeGo_spec (ts : List Transcription) :
    ∀ (n index : Nat) (d : ℚ) (txt : String) (segs : List Segment),
      (mergeGo n ts index d txt segs).2.1 = d + durationSum ts ∧
        (mergeGo n ts index d txt segs).2.2 = segs ++ mergeSpecSegments d ts := by
  induction ts with
  | nil => intro n index d txt segs; simp [mergeGo, durationSum, mergeSpecSegments]
  | cons t rest ih =>
      intro n index d txt segs
      simp only [mergeGo, durationSum, mergeSpecSegments]
      by_cases h : t.segments = []
      · simpa [h, add_assoc] using
          ih n (index + 1) (d + t.duration) _ segs
      · simpa [h, add_assoc, List.append_assoc] using
          ih n (index + 1) (d + t.duration) _ (segs ++ t.segments.map (shiftSegment d))

/-- C1 counterexample: merging two slices shifts the second slice by the
first slice's provider-reported duration (100), not by the claimed fixed
offset `1 × 300`, and the merged duration is the accumulated 150, not
`2 × 300`. -/
theorem c1_fixed_offset_counterexample :
    ((mergeTranscriptions [c1SliceA, c1SliceB]).segments.map Segment.start = [0, 100] ∧
        (mergeTranscriptions [c1SliceA, c1SliceB]).duration = 150) ∧
      ¬((mergeTranscriptions [c1SliceA, c1SliceB]).segments.map Segment.start = [0, 300]) ∧
      ¬((mergeTranscriptions [c1SliceA, c1SliceB]).duration = 2 * 300) := by
  refine ⟨⟨?_, ?_⟩, ?_, ?_⟩ <;> decide

/-- C1 (amended): for every list of per-segment results the merger shifts
the timestamps of slice `i` by the accumulated provider-reported durations
of slices `0..i-1` (not by `i × 300`), and sets the merged duration to the
sum of the reported durations (not `N × 300`). -/
theorem c1_merge_accumulates_durations (ts : List Transcription) :
    (mergeTranscriptions ts).duration = durationSum ts ∧
      (mergeTranscriptions ts).segments = mergeSpecSegments 0 ts ∧
      (mergeTranscriptions ts).totalSegments = ts.length := by
  refine ⟨?_, ?_, rfl⟩
  · simpa using (mergeGo_spec ts ts.length 0 0 "" []).1
  · simpa using (mergeGo_spec ts ts.length 0 0 "" []).2

/-- C6 counterexample: on a transcript with `totalSegments = 2` the TXT
renderer emits only the timestamped blocks — no `=== Segment i ===` (nor
`=== 片段 i ===`) divider appears anywhere in the output. -/
theorem c6_divider_counterexample :
    generatePlainText c6Example = "[00:00 - 00:02] hello\n\n[00:02 - 00:05] world" ∧
      listContainsSub "===".data (generatePlainText c6Example).data = false := by
  constructor
  · rfl
  · decide

/-- C6 (amended): the TXT rendering emits one `[MM:SS - MM:SS] text`
block per segment joined by blank lines and falls back to the raw text
when there are no segments; it is independent of `totalSegments`, so no
divider is ever inserted by the renderer (dividers exist only in the
merger's `text` field). -/
theorem c6_txt_rendering (t : Transcription) :
    (t.segments = [] → generatePlainText t = t.text) ∧
      (t.segments ≠ [] →
        generatePlainText t =
          String.intercalate "\n\n"
            (t.segments.map (fun s =>
              "[" ++ formatTime s.start ++ " - " ++ formatTime s.endTime ++ "] " ++
                jsTrimS s.text))) ∧
      (∀ n : Nat, generatePlainText { t with totalSegments := n } = generatePlainText t) := by
  refine ⟨fun h => ?_, fun h => ?_, fun n => ?_⟩
  · simp [generatePlainText, h]
  · simp [generatePlainText, h]
  · rfl

/-- C6 witness: the amended statement applied to the concrete transcript. -/
theorem c6_txt_rendering_witness :
    c6Example.segments ≠ [] ∧
      generatePlainText c6Example =
        String.intercalate "\n\n"
          (c6Example.segments.map (fun s =>
            "[" ++ formatTime s.start ++ " - " ++ formatTime s.endTime ++ "] " ++
              jsTrimS s.text)) :=
  ⟨by decide, (c6_txt_rendering c6Example).2.1 (by decide)⟩

/-- C2 counterexample: in a three-segment job whose middle segment fails
both provider calls, the job does not complete with the segment omitted —
the whole segmented path aborts with the segment's error. -/
theorem c2_segment_failure_counterexample :
    transcribeSegmentedPath [c2OkSegment c1SliceA, c2FailedSegment, c2OkSegment c1SliceB] =
        Except.error connResetError ∧
      isOkE
          (transcribeSegmentedPath
            [c2OkSegment c1SliceA, c2FailedSegment, c2OkSegment c1SliceB]) = false :=
  ⟨rfl, rfl⟩

/-- C2 (amended): the segmented path succeeds exactly when every segment
succeeds on one of its two provider calls; a segment whose calls both
fail aborts the whole job (there is no failure marker, no skipping of the
segment, and no fixed timeline advance for it). -/
theorem c2_segment_failure_aborts (os : List SegmentAttempts) :
    isOkE (transcribeSegmentedPath os) = os.all (fun o => isOkE (transcribeSegmentOnce o)) := by
  induction os with
  | nil => rfl
  | cons o rest ih =>
      simp only [transcribeSegmentedPath, collectSegmentTranscriptions, List.all_cons] at *
      cases h : transcribeSegmentOnce o with
      | ok t =>
          cases hr : collectSegmentTranscriptions rest with
          | ok ts => simp [isOkE, h, hr] at ih ⊢; exact ih
          | error e => simp [isOkE, h, hr] at ih ⊢; exact ih
      | error e => simp [isOkE, h]

/-- C3 counterexample: a quota-exhausted error on the first provider call
does not stop the pipeline after zero additional attempts — the handler
unconditionally makes the `whisper-1` fallback call (two transcription
attempts in total), and only then fails with the 402 quota class. -/
theorem c3_zero_retry_counterexample :
    singleFileAttempts (Except.error quotaError) = 2 ∧
      ¬(singleFileAttempts (Except.error quotaError) = 1) ∧
      singleFileTranscribe (Except.error quotaError)
          (Except.error quotaError : Except ApiError Transcription) =
        Except.error quotaError ∧
      (classifyTranscriptionError quotaError).1 = 402 :=
  ⟨rfl, by decide, rfl, rfl⟩

/-- C3 (amended): when the first provider call fails — for the quota
error exactly as for transient errors — the pipeline makes one additional
transcription attempt (the `whisper-1` fallback) and adopts its outcome;
a quota-exhausted error is then classified as the 402 quota class with
the quota message, with no further pipeline-level retries. -/
theorem c3_quota_classified_after_fallback (e : ApiError)
    (whisper1 : Except ApiError Transcription) :
    singleFileAttempts (Except.error e) = 2 ∧
      singleFileTranscribe (Except.error e) whisper1 = whisper1 ∧
      (e.code = "insufficient_quota" →
        classifyTranscriptionError e = (402, "OpenAI API 額度不足，請檢查帳戶餘額")) := by
  refine ⟨rfl, rfl, fun h => ?_⟩
  simp [classifyTranscriptionError, h]

/-- C3 witness: the amended statement applied to the concrete quota
error. -/
theorem c3_quota_classified_after_fallback_witness :
    quotaError.code = "insufficient_quota" ∧
      classifyTranscriptionError quotaError = (402, "OpenAI API 額度不足，請檢查帳戶餘額") :=
  ⟨rfl,
    (c3_quota_classified_after_fallback quotaError
          (Except.error quotaError : Except ApiError Transcription)).2.2 rfl⟩

lemma addTranscriptionLog_length_le (logs : List JobLogEntry) (entry : JobLogEntry)
    (h : logs.length ≤ 500) : (addTranscriptionLog logs entry).length ≤ 500 := by
  unfold addTranscriptionLog
  by_cases h' : (logs ++ [entry]).length > 500
  · rw [if_pos h']
    simp only [List.length_drop, List.length_append, List.length_cons, List.length_nil]
    omega
  · rw [if_neg h']
    exact Nat.le_of_not_lt h'

/-- C8: every append beyond capacity evicts the oldest entry (FIFO), so
the per-job log buffer never exceeds 500 entries — both for a single
append to an in-bound buffer and along any sequence of appends from the
empty buffer. -/
theorem c8_log_buffer_bounded :
    (∀ (logs : List JobLogEntry) (entry : JobLogEntry), logs.length ≤ 500 →
        (addTranscriptionLog logs entry).length ≤ 500 ∧
          (logs.length = 500 → addTranscriptionLog logs entry = logs.drop 1 ++ [entry])) ∧
      ∀ entries : List JobLogEntry, (entries.foldl addTranscriptionLog []).length ≤ 500 := by
  constructor
  · intro logs entry h
    refine ⟨addTranscriptionLog_length_le logs entry h, fun h500 => ?_⟩
    unfold addTranscriptionLog
    have hgt : (logs ++ [entry]).length > 500 := by simp [h500]
    simp only [if_pos hgt]
    exact List.drop_append_of_le_length (by omega)
  · intro entries
    have main : ∀ (es : List JobLogEntry) (init : List JobLogEntry), init.length ≤ 500 →
        (es.foldl addTranscriptionLog init).length ≤ 500 := by
      intro es
      induction es with
      | nil => intro init h; simpa using h
      | cons e rest ih =>
          intro init h
          exact ih (addTranscriptionLog init e) (addTranscriptionLog_length_le init e h)
    exact main entries [] (by simp)

/-- C8 witness: appending to a full 500-entry buffer keeps it at 500 and
drops the oldest entry. -/
theorem c8_log_buffer_bounded_witness :
    (addTranscriptionLog (List.replicate 500 c8Entry) c8Entry).length ≤ 500 ∧
      addTranscriptionLog (List.replicate 500 c8Entry) c8Entry =
        (List.replicate 500 c8Entry).drop 1 ++ [c8Entry] := by
  have h :=
    c8_log_buffer_bounded.1 (List.replicate 500 c8Entry) c8Entry
      (List.length_replicate 500 c8Entry).le
  exact ⟨h.1, h.2 (List.length_replicate 500 c8Entry)⟩

/-- C7: the TXT/SRT/VTT renderers are pure functions of the transcript's
text, duration and segments — re-rendering equal data yields byte-equal
output whatever the ambient state — with VTT carrying the `WEBVTT` header
and the SRT/VTT timestamps sharing the same floored `HH:MM:SS` and
millisecond digits, separated by `,` and `.` respectively. -/
theorem c7_render_determinism (t₁ t₂ : Transcription)
    (htext : t₁.text = t₂.text) (hdur : t₁.duration = t₂.duration)
    (hseg : t₁.segments = t₂.segments) :
    generatePlainText t₁ = generatePlainText t₂ ∧
      generateSRT t₁ = generateSRT t₂ ∧
      generateVTT t₁ = generateVTT t₂ ∧
      (∃ rest, generateVTT t₁ = "WEBVTT\n\n" ++ rest) ∧
      ∀ q : ℚ, ∃ hms ms,
        formatSRTTime q = hms ++ ("," ++ ms) ∧
          formatVTTTime q = hms ++ ("." ++ ms) ∧
          ms = padStart (toString (jsFloor (jsMod q 1 * 1000))) 3 '0' := by
  refine ⟨?_, ?_, ?_, ⟨_, rfl⟩, fun q => ⟨_, _, rfl, rfl, rfl⟩⟩
  · simp only [generatePlainText, htext, hseg]
  · simp only [generateSRT, generatePlainSRT, htext, hdur, hseg]
  · simp only [generateVTT, generatePlainVTT, htext, hdur, hseg]

/-- C7 witness: two transcripts differing only in language, processing
flag and `totalSegments` render to identical bytes. -/
theorem c7_render_determinism_witness :
    generateSRT c6Example = generateSRT c7Variant ∧
      generateVTT c6Example = generateVTT c7Variant ∧
      generatePlainText c6Example = generatePlainText c7Variant := by
  have h := c7_render_determinism c6Example c7Variant rfl rfl rfl
  exact ⟨h.2.1, h.2.2.1, h.1⟩

/-- C9 counterexample: the speaker-labelling pass consults the ambient
unseeded `Math.random()` stream — two runs on the same fixed two-segment
list (one stream drawing 0.9, the other 0) assign different speakers, so
labelling is not reproducible across runs. -/
theorem c9_unseeded_randomness_counterexample :
    simulateSpeakerDetection c9RandHigh c9Segments ≠
        simulateSpeakerDetection c9RandLow c9Segments ∧
      (simulateSpeakerDetection c9RandHigh c9Segments).map Segment.speaker =
        [some "Speaker 1", some "Speaker 2"] ∧
      (simulateSpeakerDetection c9RandLow c9Segments).map Segment.speaker =
        [some "Speaker 1", some "Speaker 1"] := by
  refine ⟨?_, ?_, ?_⟩ <;> decide

lemma speakerGo_speaker_capped (rand : Nat → ℚ) :
    ∀ (rest : List Segment) (prev : Segment) (currentSpeaker : String)
      (speakerCount randIdx : Nat),
      1 ≤ speakerCount → speakerCount ≤ 4 →
      currentSpeaker = "Speaker " ++ toString speakerCount →
      ∀ s ∈ speakerGo rand rest prev currentSpeaker speakerCount randIdx,
        ∃ k : Nat, 1 ≤ k ∧ k ≤ 4 ∧ s.speaker = some ("Speaker " ++ toString k) := by
  intro rest
  induction rest with
  | nil => intro prev cs count ri h1 h4 hcs s hs; simp [speakerGo] at hs
  | cons seg rest ih =>
      intro prev cs count ri h1 h4 hcs s hs
      simp only [speakerGo] at hs
      by_cases hcond :
          seg.start - prev.endTime > 3 ∨
            ((seg.text.length : ℤ) - (prev.text.length : ℤ)).natAbs > 50
      · rw [if_pos hcond] at hs
        by_cases hrand : rand ri > 7/10
        · rw [if_pos hrand] at hs
          rcases List.mem_cons.mp hs with h | h
          · exact ⟨min (count + 1) 4, le_min (by omega) (by omega),
              min_le_right _ _, by simp [h]⟩
          · exact ih seg _ (min (count + 1) 4) (ri + 1)
              (le_min (by omega) (by omega)) (min_le_right _ _) rfl s h
        · rw [if_neg hrand] at hs
          rcases List.mem_cons.mp hs with h | h
          · exact ⟨count, h1, h4, by simp [h, hcs]⟩
          · exact ih seg cs count (ri + 1) h1 h4 hcs s h
      · rw [if_neg hcond] at hs
        rcases List.mem_cons.mp hs with h | h
        · exact ⟨count, h1, h4, by simp [h, hcs]⟩
        · exact ih seg cs count ri h1 h4 hcs s h

/-- C9 (amended): every segment labelled by the pass carries a speaker
`Speaker k` with `1 ≤ k ≤ 4` — the counter never exceeds 4 — but the
assignment depends on the ambient unseeded random stream, so it need not
be reproducible across runs. -/
theorem c9_speaker_counter_capped (rand : Nat → ℚ) (segments : List Segment) :
    ∀ s ∈ simulateSpeakerDetection rand segments,
      ∃ k : Nat, 1 ≤ k ∧ k ≤ 4 ∧ s.speaker = some ("Speaker " ++ toString k) := by
  cases segments with
  | nil => intro s hs; simp [simulateSpeakerDetection] at hs
  | cons seg rest =>
      intro s hs
      simp only [simulateSpeakerDetection] at hs
      rcases List.mem_cons.mp hs with h | h
      · exact ⟨1, le_refl 1, by omega, by simp [h]; rfl⟩
      · exact speakerGo_speaker_capped rand rest seg "Speaker 1" 1 0
          (le_refl 1) (by omega) rfl s h

/-- C9 witness: the cap statement applied to the first labelled segment
of a concrete run. -/
theorem c9_speaker_counter_capped_witness :
    ∃ k : Nat, 1 ≤ k ∧ k ≤ 4 ∧
      (Segment.speaker
          { start := 0, endTime := 1, text := "a", speaker := some "Speaker 1" }) =
        some ("Speaker " ++ toString k) :=
  c9_speaker_counter_capped c9RandLow c9Segments
    { start := 0, endTime := 1, text := "a", speaker := some "Speaker 1" } (by decide)

lemma jsTrim_length_le (l : List Char) : (jsTrim l).length ≤ l.length := by
  unfold jsTrim
  have h1 := (List.dropWhile_sublist (l := l) Char.isWhitespace).length_le
  have h2 := (List.dropWhile_sublist (l := (l.dropWhile Char.isWhitespace).reverse)
      Char.isWhitespace).length_le
  simp only [List.length_reverse] at h1 h2 ⊢
  omega

lemma truncateKeywords_length_le (l : List Char) : (truncateKeywords l).length ≤ 400 := by
  unfold truncateKeywords
  by_cases h : l.length > 400
  · rw [if_pos h]; simp [List.length_take]
  · rw [if_neg h]; omega

lemma listStartsWith_append (p t : List Char) : listStartsWith p (p ++ t) = true := by
  induction p with
  | nil => rfl
  | cons a as ih => simp [listStartsWith, ih]

lemma listStartsWith_self (p : List Char) : listStartsWith p p = true := by
  simpa using listStartsWith_append p []

lemma generateOptimizedPrompt_zh_length (contentType : String) :
    ((generateOptimizedPrompt "zh" contentType).data).length ≤ 398 := by
  unfold generateOptimizedPrompt
  rw [if_pos rfl]
  split
  · decide
  · split
    · decide
    · split
      · decide
      · decide

/-- C4: whatever the raw keywords and content type, the assembled prompt
never exceeds 400 characters, and whenever trimmed keywords are present
they are prepended whole (the template, not the keywords, is what gets
truncated when the combination exceeds 400). -/
theorem c4_prompt_cap_and_keyword_priority (rawKeywords : List Char) (contentType : String) :
    (assembledPrompt rawKeywords contentType).length ≤ 400 ∧
      (jsTrim (truncateKeywords rawKeywords) ≠ [] →
        listStartsWith (jsTrim (truncateKeywords rawKeywords))
            (assembledPrompt rawKeywords contentType) = true) := by
  unfold assembledPrompt assemblePromptFromTruncated
  have hkw : (jsTrim (truncateKeywords rawKeywords)).length ≤ 400 :=
    le_trans (jsTrim_length_le _) (truncateKeywords_length_le _)
  have hbase := generateOptimizedPrompt_zh_length contentType
  by_cases h0 : jsTrim (truncateKeywords rawKeywords) = []
  · rw [if_pos h0]
    exact ⟨by omega, fun hne => absurd h0 hne⟩
  · rw [if_neg h0]
    by_cases h1 : (jsTrim (truncateKeywords rawKeywords) ++
        ('\n' :: '\n' :: (generateOptimizedPrompt "zh" contentType).data)).length > 400
    · rw [if_pos h1]
      by_cases h2 : 400 - (jsTrim (truncateKeywords rawKeywords)).length - 2 > 0
      · rw [if_pos h2]
        refine ⟨?_, fun _ => listStartsWith_append _ _⟩
        simp only [List.length_append, List.length_cons, List.length_take]
        omega
      · rw [if_neg h2]
        refine ⟨?_, fun _ => ?_⟩
        · simp only [List.length_take]; omega
        · rw [List.take_of_length_le hkw]
          exact listStartsWith_self _
    · rw [if_neg h1]
      exact ⟨by omega, fun _ => listStartsWith_append _ _⟩

/-- C4 witness: concrete keywords are kept as the prompt's prefix and the
cap holds. -/
theorem c4_prompt_witness :
    jsTrim (truncateKeywords c4Keywords) ≠ [] ∧
      listStartsWith (jsTrim (truncateKeywords c4Keywords))
          (assembledPrompt c4Keywords "podcast") = true ∧
      (assembledPrompt c4Keywords "podcast").length ≤ 400 :=
  ⟨by decide,
    (c4_prompt_cap_and_keyword_priority c4Keywords "podcast").2 (by decide),
    (c4_prompt_cap_and_keyword_priority c4Keywords "podcast").1⟩

/-- C5: validation fails exactly when the lowercased extension is outside
the accepted set or the size is 0 (empty) or below 1000 bytes
(truncated); with an accepted extension and admissible size, a header
matching no known signature is still accepted — with the warning flag
set. -/
theorem c5_validation_exactly :
    (∀ (ext : String) (size : Nat) (bytes : List Nat),
        isOkE (validateAudio ext size bytes) = true ↔
          (jsToLower ext ∈ supportedExtensions ∧ size ≠ 0 ∧ ¬size < 1000)) ∧
      ∀ (ext : String) (size : Nat) (bytes : List Nat),
        jsToLower ext ∈ supportedExtensions → 1000 ≤ size →
        audioSignatureKnown bytes = false →
        validateAudio ext size bytes = Except.ok true := by
  constructor
  · intro ext size bytes
    unfold validateAudio validateAndNormalizeAudioFile validateAudioFileContent
    by_cases hext : jsToLower ext ∈ supportedExtensions
    · by_cases hz : size = 0
      · simp [hext, hz, isOkE]
      · by_cases hlt : size < 1000
        · simp [hext, hz, hlt, isOkE]
        · simp [hext, hz, hlt, isOkE]
    · simp [hext, isOkE]
  · intro ext size bytes hext hsize hsig
    unfold validateAudio validateAndNormalizeAudioFile validateAudioFileContent
    have h0 : ¬size = 0 := by omega
    have h1 : ¬size < 1000 := by omega
    simp [hext, h0, h1, hsig]

/-- C5 witness: an `.mp3` file of 5000 bytes whose first 12 bytes match
no known signature is accepted with the warning flag. -/
theorem c5_validation_witness :
    jsToLower ".mp3" ∈ supportedExtensions ∧
      audioSignatureKnown c5HeaderBytes = false ∧
      validateAudio ".mp3" 5000 c5HeaderBytes = Except.ok true :=
  ⟨by decide, by decide,
    c5_validation_exactly.2 ".mp3" 5000 c5HeaderBytes (by decide) (by decide) (by decide)⟩

lemma segOptStep_length (st : List Segment × Option Segment) (seg : Segment) :
    (segOptStep st seg).1.length + optCount (segOptStep st seg).2 ≤
      st.1.length + optCount st.2 + 1 := by
  obtain ⟨acc, cur⟩ := st
  unfold segOptStep
  by_cases hshort : (jsTrimS seg.text).length < 2
  · rw [if_pos hshort]; omega
  · rw [if_neg hshort]
    cases cur with
    | none => simp [optCount]
    | some c =>
        dsimp only
        by_cases hmerge : seg.start - c.endTime < 1 ∧ c.text.length < 100 ∧
            isSentenceEnd c.text = false
        · rw [if_pos hmerge]; simp [optCount]
        · rw [if_neg hmerge]; simp [optCount, List.length_append]

lemma segOpt_foldl_length (segs : List Segment) :
    ∀ st : List Segment × Option Segment,
      (segs.foldl segOptStep st).1.length + optCount (segs.foldl segOptStep st).2 ≤
        st.1.length + optCount st.2 + segs.length := by
  induction segs with
  | nil => intro st; simp
  | cons seg rest ih =>
      intro st
      simp only [List.foldl_cons, List.length_cons]
      have h1 := ih (segOptStep st seg)
      have h2 := segOptStep_length st seg
      omega

lemma segOptStep_text_ge (st : List Segment × Option Segment) (seg : Segment)
    (hacc : ∀ s ∈ st.1, 2 ≤ s.text.length)
    (hcur : ∀ c, st.2 = some c → 2 ≤ c.text.length) :
    (∀ s ∈ (segOptStep st seg).1, 2 ≤ s.text.length) ∧
      ∀ c, (segOptStep st seg).2 = some c → 2 ≤ c.text.length := by
  obtain ⟨acc, cur⟩ := st
  unfold segOptStep
  by_cases hshort : (jsTrimS seg.text).length < 2
  · rw [if_pos hshort]; exact ⟨hacc, hcur⟩
  · rw [if_neg hshort]
    cases cur with
    | none =>
        dsimp only
        refine ⟨hacc, fun c hc => ?_⟩
        have hX := Option.some.inj hc
        rw [← hX]
        show 2 ≤ (jsTrimS seg.text).length
        omega
    | some c0 =>
        dsimp only
        by_cases hmerge : seg.start - c0.endTime < 1 ∧ c0.text.length < 100 ∧
            isSentenceEnd c0.text = false
        · rw [if_pos hmerge]
          refine ⟨hacc, fun c hc => ?_⟩
          have hX := Option.some.inj hc
          rw [← hX]
          have h2 : 2 ≤ c0.text.length := hcur c0 rfl
          show 2 ≤ (c0.text ++ " " ++ jsTrimS seg.text).length
          simp only [String.length_append]
          omega
        · rw [if_neg hmerge]
          constructor
          · intro s hs
            rcases List.mem_append.mp hs with h | h
            · exact hacc s h
            · rw [List.mem_singleton.mp h]
              exact hcur c0 rfl
          · intro c hc
            have hX := Option.some.inj hc
            rw [← hX]
            show 2 ≤ (jsTrimS seg.text).length
            omega

lemma segOpt_foldl_text_ge (segs : List Segment) :
    ∀ st : List Segment × Option Segment,
      (∀ s ∈ st.1, 2 ≤ s.text.length) → (∀ c, st.2 = some c → 2 ≤ c.text.length) →
      (∀ s ∈ (segs.foldl segOptStep st).1, 2 ≤ s.text.length) ∧
        ∀ c, (segs.foldl segOptStep st).2 = some c → 2 ≤ c.text.length := by
  induction segs with
  | nil => intro st h1 h2; simpa using ⟨h1, h2⟩
  | cons seg rest ih =>
      intro st h1 h2
      simp only [List.foldl_cons]
      have h := segOptStep_text_ge st seg h1 h2
      exact ih _ h.1 h.2

/-- C10: before any format is rendered, the processing step rewrites the
segment list — segments with trimmed text under 2 characters are dropped
and close-following segments are merged into a predecessor that is short
and not sentence-final (first start kept, last end taken, texts and words
concatenated) — so the rewritten list is never longer than the input,
every surviving segment has at least 2 characters, and the rendered TXT
of a concrete 3-segment transcript contains a single merged block. -/
theorem c10_segment_rewrite :
    (∀ segs : List Segment, (intelligentSegmentation segs).length ≤ segs.length) ∧
      (∀ segs : List Segment, ∀ s ∈ intelligentSegmentation segs, 2 ≤ s.text.length) ∧
      intelligentSegmentation c10Segments = [c10Merged] ∧
      (processTranscriptionResult c10Env c10Transcription c10Options).2.txt =
        some "[00:00 - 00:04] Hello world" ∧
      c10Segments.length = 3 ∧
      (processTranscriptionResult c10Env c10Transcription c10Options).1.segments =
        [c10Merged] := by
  refine ⟨?_, ?_, by decide, by decide, by decide, by decide⟩
  · intro segs
    unfold intelligentSegmentation
    have h := segOpt_foldl_length segs ([], none)
    cases hr : (List.foldl segOptStep ([], none) segs).2 with
    | none =>
        rw [hr] at h
        simpa [optCount] using h
    | some c =>
        rw [hr] at h
        simp [optCount] at h
        dsimp only
        simp only [List.length_append, List.length_cons, List.length_nil]
        omega
  · intro segs s hs
    unfold intelligentSegmentation at hs
    have h := segOpt_foldl_text_ge segs ([], none) (by simp) (by simp)
    cases hr : (List.foldl segOptStep ([], none) segs).2 with
    | none => rw [hr] at hs; exact h.1 s hs
    | some c =>
        rw [hr] at hs
        rcases List.mem_append.mp hs with h' | h'
        · exact h.1 s h'
        · rw [List.mem_singleton.mp h']
          exact h.2 c hr

/-- C10 witness: the text-length guarantee applied to the concrete merged
segment. -/
theorem c10_segment_rewrite_witness :
    c10Merged ∈ intelligentSegmentation c10Segments ∧ 2 ≤ c10Merged.text.length :=
  ⟨by decide, c10_segment_rewrite.2.1 c10Segments c10Merged (by decide)⟩
